import Mathlib

/-!
Shallow embedding of `src/bluescan/__main__.py` (controller normalization,
cleanup, exception layer, and mode dispatch) together with theorems checking
the natural-language specification against it.
-/

namespace Bluescan

/-- `ControllerErrorCodes.SUCCESS` (0x00). -/
def SUCCESS : Nat := 0x00

/-- `ControllerErrorCodes.COMMAND_DISALLOWED` (0x0c), the spec's `Benign` code. -/
def COMMAND_DISALLOWED : Nat := 0x0c

/-- The membership test `status in (SUCCESS, COMMAND_DISALLOWED)` used by the
five guards at lines 50, 56, 61, 66, 71 of `__main__.py`. -/
def benign_ok (s : Nat) : Bool :=
  s == SUCCESS || s == COMMAND_DISALLOWED

/-- Statuses returned by each HCI command issued by `prepare_hci`, plus the
6-byte address payload returned by `read_bd_addr` on success.  The controller
is external, so its responses are the input of the embedding. -/
structure HciEnv where
  inquiry_cancel_status : Nat
  exit_periodic_inquiry_mode_status : Nat
  write_scan_enable_status : Nat
  le_set_advertising_enable_status : Nat
  le_set_scan_enable_status : Nat
  set_event_filter_status : Nat
  read_bd_addr_status : Nat
  read_bd_addr_addr : List Nat
deriving Repr, DecidableEq

/-- One entry of the bluetoothd cache directory
`/var/lib/bluetooth/<addr>/cache`: a name plus whether it is a directory. -/
structure CacheEntry where
  name : String
  isDir : Bool
deriving Repr, DecidableEq

/-- How one run of `prepare_hci` terminates: normal return, the explicit
`raise RuntimeError(...)` at line 82, or the `IsADirectoryError`/`OSError`
that `os.remove` raises on a directory entry (line 91). -/
inductive PrepOutcome where
  | normal
  | raisedRuntimeError (status : Nat)
  | raisedOsError (entryName : String)
deriving Repr, DecidableEq

/-- Observable result of one run of `prepare_hci`: the HCI commands issued, the
warnings logged (command name tagged with the status the guard examined), the
termination outcome, how many times `hci.close()` ran, the cache directory
contents afterwards, and the resolved local address if any. -/
structure PrepResult where
  issued : List String
  warnings : List (String × Nat)
  outcome : PrepOutcome
  closeCount : Nat
  cacheAfter : Option (List CacheEntry)
  localAddr : Option String
deriving Repr, DecidableEq

/-- Uppercase hexadecimal digit. -/
def hexDigit (n : Nat) : Char :=
  if n < 10 then Char.ofNat (48 + n) else Char.ofNat (55 + n)

/-- Two-digit uppercase hex rendering of one byte. -/
def byteHex (b : Nat) : String :=
  String.mk [hexDigit (b / 16 % 16), hexDigit (b % 16)]

/-- The external helper `xpycommon.bluetooth.bd_addr_bytes2str`: renders the
6 little-endian address bytes as a colon-separated hex string. -/
def bd_addr_bytes2str (bs : List Nat) : String :=
  String.intercalate ":" (bs.reverse.map byteHex)

/-- The cache-clearing loop at lines 89-91:
`for file in cache_path.iterdir(): os.remove(file)`.
Entries are removed in order until one is a directory, at which point
`os.remove` raises; returns the remaining entries and the offending name. -/
def remove_cache_files : List CacheEntry → List CacheEntry × Option String
  | [] => ([], none)
  | e :: rest =>
    if e.isDir then (e :: rest, some e.name)
    else remove_cache_files rest

/-- One guard block of `prepare_hci`: lines 50-52 and its four siblings log a
warning exactly when the examined status is not in
`(SUCCESS, COMMAND_DISALLOWED)`. -/
def interm_warn (cmd : String) (examined : Nat) : List (String × Nat) :=
  if benign_ok examined then [] else [(cmd, examined)]

/-- The seven HCI commands `prepare_hci` sends, in source order
(lines 49, 55, 60, 65, 70, 75, 80).  The code is straight-line: all seven are
always issued. -/
def all_hci_commands : List String :=
  ["inquiry_cancel", "exit_periodic_inquiry_mode", "write_scan_enable",
   "le_set_advertising_enable", "le_set_scan_enable", "set_event_filter",
   "read_bd_addr"]

/-- The warnings logged by lines 48-78 of `prepare_hci`.  Line 60 calls
`hci.write_scan_enable()` without assigning `cmd_complete`, so the guard at
line 61 re-examines the status left over from `exit_periodic_inquiry_mode`;
the embedding reproduces that.  The `set_event_filter` guard (line 76) tests
`!= SUCCESS`, so `COMMAND_DISALLOWED` is warned about there as well. -/
def prep_warnings (env : HciEnv) : List (String × Nat) :=
  interm_warn "inquiry_cancel" env.inquiry_cancel_status ++
  interm_warn "exit_periodic_inquiry_mode" env.exit_periodic_inquiry_mode_status ++
  interm_warn "write_scan_enable" env.exit_periodic_inquiry_mode_status ++
  interm_warn "le_set_advertising_enable" env.le_set_advertising_enable_status ++
  interm_warn "le_set_scan_enable" env.le_set_scan_enable_status ++
  (if env.set_event_filter_status = SUCCESS then []
   else [("set_event_filter", env.set_event_filter_status)])

/-- `prepare_hci` (lines 29-93), from the point where the `HCI` handle is open.
All six intermediate commands are issued and their guards only log warnings
(`prep_warnings`); then `read_bd_addr` is checked: a non-`SUCCESS` status
raises `RuntimeError` (line 82) before `hci.close()` is reached.  On success
the address keys the cache path, the cache files are removed one by one
(raising on a directory entry, again before `hci.close()`), and only the
fall-through path reaches `hci.close()` at line 93. -/
def prepare_hci (env : HciEnv) (cache : Option (List CacheEntry)) : PrepResult :=
  if env.read_bd_addr_status ≠ SUCCESS then
    { issued := all_hci_commands, warnings := prep_warnings env,
      outcome := .raisedRuntimeError env.read_bd_addr_status,
      closeCount := 0, cacheAfter := cache, localAddr := none }
  else
    let local_bd_addr := (bd_addr_bytes2str env.read_bd_addr_addr).toUpper
    match cache with
    | none =>
      { issued := all_hci_commands, warnings := prep_warnings env,
        outcome := .normal, closeCount := 1,
        cacheAfter := none, localAddr := some local_bd_addr }
    | some entries =>
      match remove_cache_files entries with
      | (remaining, some bad) =>
        { issued := all_hci_commands, warnings := prep_warnings env,
          outcome := .raisedOsError bad, closeCount := 0,
          cacheAfter := some remaining, localAddr := some local_bd_addr }
      | (remaining, none) =>
        { issued := all_hci_commands, warnings := prep_warnings env,
          outcome := .normal, closeCount := 1,
          cacheAfter := some remaining, localAddr := some local_bd_addr }

/-- Which `prepare_hci` terminations the `except` chain of `main`
(lines 202-210: `RuntimeError`/`ValueError`, `BTLEException`,
`PluginInstallError`, `KeyboardInterrupt`) would catch: the explicit
`RuntimeError` is caught; an `OSError` from `os.remove` matches no clause. -/
def caught_by_except_clauses : PrepOutcome → Bool
  | .raisedRuntimeError _ => true
  | .raisedOsError _ => false
  | .normal => false

/-- Host-level privileged commands run through `subprocess.check_output`. -/
inductive HostCmd where
  | systemctl_stop (svc : String)
  | systemctl_start (svc : String)
  | rm_rf (path : String)
deriving Repr, DecidableEq

/-- `clean(laddr, raddr)` (lines 96-117) as the ordered list of host commands
it issues: stop the service, `rm -rf` the peer subtree, `rm -rf` the cache
peer subtree (remote address uppercased both times), start the service. -/
def clean (laddr raddr : String) : List HostCmd :=
  [ .systemctl_stop "bluetooth.service",
    .rm_rf ("/var/lib/bluetooth/" ++ laddr ++ "/" ++ raddr.toUpper),
    .rm_rf ("/var/lib/bluetooth/" ++ laddr ++ "/cache/" ++ raddr.toUpper),
    .systemctl_start "bluetooth.service" ]

/-- Host state the cleanup commands act on: the set of filesystem paths that
exist, and whether the Bluetooth service is running. -/
structure HostState where
  fsPaths : List String
  svcRunning : Bool
deriving Repr, DecidableEq

/-- `p` lies in the subtree rooted at `dir` (is `dir` itself or below it). -/
def under_path (dir p : String) : Bool :=
  p == dir || (dir ++ "/").isPrefixOf p

/-- Effect of one host command.  `rm -rf` deletes the whole subtree and, by
its semantics, succeeds (changing nothing) when the path is absent. -/
def run_host_cmd (st : HostState) : HostCmd → HostState
  | .systemctl_stop _ => { st with svcRunning := false }
  | .systemctl_start _ => { st with svcRunning := true }
  | .rm_rf path => { st with fsPaths := st.fsPaths.filter (fun p => !(under_path path p)) }

/-- Run a command list left to right. -/
def run_host_cmds (st : HostState) (cmds : List HostCmd) : HostState :=
  cmds.foldl run_host_cmd st

/-- Invocation parameters, as `main` reads them out of `args` after the CLI
layer validated them. -/
structure Args where
  iface : Option String
  mode : Option String
  adv : Bool
  lmp_feature : Bool
  ll_feature : Bool
  smp_feature : Bool
  clean_flag : Bool
deriving Repr, DecidableEq

/-- The exceptions the first three `except` clauses of `main` (lines 202-209)
distinguish.  The `KeyboardInterrupt` clause (lines 210-215) is modelled
separately by `handle_keyboard_interrupt`, because its behaviour also depends
on whether `args` was bound yet and on the reset subprocess's exit status. -/
inductive MainExc where
  | runtime_error (msg : String)
  | value_error (msg : String)
  | btle_exception (msg : String)
  | plugin_install_error (msg : String)
deriving Repr, DecidableEq

/-- Observable behaviour of one `except` clause of `main`: interfaces reset by
`hciconfig <iface> reset`, error-level log lines, info-level log lines,
whether a blank line was printed, whether a traceback was printed, and the
process exit code. -/
structure ExcResult where
  resetCmds : List String
  errorLogs : List String
  infoLogs : List String
  printedBlank : Bool
  tracePrinted : Bool
  exitCode : Nat
deriving Repr, DecidableEq

/-- `needle` occurs as a contiguous run inside `hay`. -/
def contains_sub : List Char → List Char → Bool
  | needle, [] => needle.isEmpty
  | needle, c :: rest => needle.isPrefixOf (c :: rest) || contains_sub needle rest

/-- The substring test `'le on' in str(e)` at line 207. -/
def le_on_in (msg : String) : Bool :=
  contains_sub "le on".data msg.data

/-- The first three `except` clauses of `main` (lines 202-209).
`RuntimeError`/`ValueError` log the class and message, print a traceback and
call `exit(1)`; `BTLEException` logs the message with a hint appended when it
contains `le on`, and falls through (exit 0); `PluginInstallError` logs and
falls through.  None of these clauses touches the interface, so `args` is
unused by them. -/
def handle_exception (args : Option Args) : MainExc → ExcResult
  | .runtime_error msg =>
    { resetCmds := [], errorLogs := ["RuntimeError: " ++ msg], infoLogs := [],
      printedBlank := false, tracePrinted := true, exitCode := 1 }
  | .value_error msg =>
    { resetCmds := [], errorLogs := ["ValueError: " ++ msg], infoLogs := [],
      printedBlank := false, tracePrinted := true, exitCode := 1 }
  | .btle_exception msg =>
    { resetCmds := [],
      errorLogs := [msg ++ (if le_on_in msg then "\nNo BLE adapter or missing sudo?" else "")],
      infoLogs := [], printedBlank := false, tracePrinted := false, exitCode := 0 }
  | .plugin_install_error msg =>
    { resetCmds := [], errorLogs := ["Failed to install plugin: " ++ msg],
      infoLogs := [], printedBlank := false, tracePrinted := false, exitCode := 0 }

/-- The state of the local variable `args` at the moment `KeyboardInterrupt`
is caught: still unbound (the interrupt arrived inside `parse_cmdline()`
before line 122's assignment completed), or bound to the value the guard at
line 211 compares against `None`. -/
inductive ArgsState where
  | unbound
  | bound (v : Option Args)
deriving Repr, DecidableEq

/-- Observable behaviour of the `KeyboardInterrupt` clause (lines 210-215):
the `hciconfig <iface> reset` commands issued, whether the blank line of
line 214 was printed, the info-level log lines, whether the process
terminates with a non-zero status, and whether an exception escaped the
handler itself. -/
structure InterruptResult where
  resetAttempts : List String
  printedBlank : Bool
  infoLogs : List String
  errorExit : Bool
  uncaughtException : Bool
deriving Repr, DecidableEq

/-- The `KeyboardInterrupt` clause of `main` (lines 210-215).  If `args` is
still unbound, evaluating `args != None` at line 211 itself raises, nothing
in the clause runs, and the process dies abnormally.  If `args` is `None` or
`args[-i]` is `None`, no reset is issued and the clause prints the blank
line and logs `Canceled`.  Otherwise `subprocess.check_output` runs
`hciconfig <args[-i]> reset` — regardless of whether that interface was ever
opened; `reset_fails` gives the command's exit status: on a non-zero exit
`check_output` raises `CalledProcessError` at line 212, which no handler
catches, so the blank line and `Canceled` never appear and the process dies
abnormally; on success the clause finishes gracefully. -/
def handle_keyboard_interrupt (args : ArgsState) (reset_fails : String → Bool) :
    InterruptResult :=
  match args with
  | .unbound =>
    { resetAttempts := [], printedBlank := false, infoLogs := [],
      errorExit := true, uncaughtException := true }
  | .bound none =>
    { resetAttempts := [], printedBlank := true, infoLogs := ["Canceled\n"],
      errorExit := false, uncaughtException := false }
  | .bound (some a) =>
    match a.iface with
    | none =>
      { resetAttempts := [], printedBlank := true, infoLogs := ["Canceled\n"],
        errorExit := false, uncaughtException := false }
    | some i =>
      if reset_fails i then
        { resetAttempts := [i], printedBlank := false, infoLogs := [],
          errorExit := true, uncaughtException := true }
      else
        { resetAttempts := [i], printedBlank := true, infoLogs := ["Canceled\n"],
          errorExit := false, uncaughtException := false }

/-- Lines 146-158 of `main`: the selected HCI interface is configured and a
Controller Handle opened (`prepare_hci`) only when the invocation is not the
external-sniffer `--adv` mode; in `--adv` mode no controller interface is
ever opened, yet `args[-i]` keeps whatever string the CLI layer supplied
(the sentinel `The default HCI device` when the user gave none). -/
def opens_interface (a : Args) : Bool :=
  !a.adv

/-- The parameter set of an `--adv` sniff invocation with no explicit
interface: `prepare_hci` is skipped, yet `args[-i]` holds the CLI layer's
sentinel string. -/
def adv_sniff_args : Args :=
  { iface := some "The default HCI device", mode := some "le", adv := true,
    lmp_feature := false, ll_feature := false, smp_feature := false,
    clean_flag := false }

/-- A plain LE scan invocation with interface `hci0` selected. -/
def hci0_args : Args :=
  { iface := some "hci0", mode := some "le", adv := false,
    lmp_feature := false, ll_feature := false, smp_feature := false,
    clean_flag := false }

/-- A scan engine's result object: only its type tag is observable here; the
`print`/`store` capabilities are recorded by the dispatcher trace. -/
structure ScanResult where
  type_tag : String
deriving Repr, DecidableEq

/-- The engine operation (or error) each branch of `main` (lines 160-192)
invokes. -/
inductive EngineOp where
  | br_scan_lmp_feature
  | br_inquiry
  | le_sniff_adv
  | le_scan_ll_feature
  | le_detect_pairing_feature
  | le_scan_devs
  | sdp_scan
  | gatt_scan
  | clean_op
  | invalid_mode_error
deriving Repr, DecidableEq

/-- Trace of the mode dispatch plus result lifecycle (lines 160-200): which
engine operation ran, the `scan_result` variable afterwards, the header lines
printed, and the results passed to `print()` and `store()`. -/
structure DispatchTrace where
  ops : List EngineOp
  scan_result : Option ScanResult
  headers : List String
  rendered : List ScanResult
  stored : List ScanResult
deriving Repr, DecidableEq

/-- The `if/elif` chain of `main` (lines 161-192): exactly one branch runs;
`scan_result` starts as `None` and only the LE device-scan branch (line 179)
and the GATT branch (line 184) assign it from their engine's return value.
The engines are external, so their return values (`le_devs_result`,
`gatt_result`) are inputs. -/
def dispatch_branch (args : Args) (le_devs_result gatt_result : Option ScanResult) :
    EngineOp × Option ScanResult :=
  if args.mode = some "br" then
    if args.lmp_feature then (.br_scan_lmp_feature, none)
    else (.br_inquiry, none)
  else if args.mode = some "le" then
    if args.adv then (.le_sniff_adv, none)
    else if args.ll_feature then (.le_scan_ll_feature, none)
    else if args.smp_feature then (.le_detect_pairing_feature, none)
    else (.le_scan_devs, le_devs_result)
  else if args.mode = some "sdp" then (.sdp_scan, none)
  else if args.mode = some "gatt" then (.gatt_scan, gatt_result)
  else if args.clean_flag then (.clean_op, none)
  else (.invalid_mode_error, none)

/-- Lines 194-200 of `main`: `if scan_result is not None`, print a header
naming the scan type, then call `scan_result.print()` and
`scan_result.store()` once each; otherwise print and store nothing. -/
def result_lifecycle (branch : EngineOp × Option ScanResult) : DispatchTrace :=
  match branch with
  | (op, some r) =>
    { ops := [op], scan_result := some r,
      headers := ["----------------" ++ r.type_tag ++ " Scan Result----------------"],
      rendered := [r], stored := [r] }
  | (op, none) =>
    { ops := [op], scan_result := none, headers := [], rendered := [], stored := [] }

/-- Lines 160-200 of `main`: branch selection followed by the result
lifecycle. -/
def dispatch (args : Args) (le_devs_result gatt_result : Option ScanResult) :
    DispatchTrace :=
  result_lifecycle (dispatch_branch args le_devs_result gatt_result)

/-- An environment in which every controller command succeeds and the
controller reports address bytes for `11:22:33:44:55:66`. -/
def all_success_env : HciEnv :=
  { inquiry_cancel_status := SUCCESS, exit_periodic_inquiry_mode_status := SUCCESS,
    write_scan_enable_status := SUCCESS, le_set_advertising_enable_status := SUCCESS,
    le_set_scan_enable_status := SUCCESS, set_event_filter_status := SUCCESS,
    read_bd_addr_status := SUCCESS,
    read_bd_addr_addr := [0x66, 0x55, 0x44, 0x33, 0x22, 0x11] }

/-- `env` with all six intermediate statuses forced to `SUCCESS`; used to
express that the run's outcome does not depend on them. -/
def with_success_intermediates (env : HciEnv) : HciEnv :=
  { env with inquiry_cancel_status := SUCCESS,
             exit_periodic_inquiry_mode_status := SUCCESS,
             write_scan_enable_status := SUCCESS,
             le_set_advertising_enable_status := SUCCESS,
             le_set_scan_enable_status := SUCCESS,
             set_event_filter_status := SUCCESS }

lemma prepare_hci_warnings_eq (env : HciEnv) (cache : Option (List CacheEntry)) :
    (prepare_hci env cache).warnings = prep_warnings env := by
  unfold prepare_hci
  by_cases h : env.read_bd_addr_status = SUCCESS
  · simp only [h, ne_eq, not_true_eq_false, if_false]
    cases cache with
    | none => rfl
    | some entries =>
      rcases hr : remove_cache_files entries with ⟨rem, bad⟩
      cases bad <;> simp [hr]
  · simp [h]

lemma prepare_hci_issued_eq (env : HciEnv) (cache : Option (List CacheEntry)) :
    (prepare_hci env cache).issued = all_hci_commands := by
  unfold prepare_hci
  by_cases h : env.read_bd_addr_status = SUCCESS
  · simp only [h, ne_eq, not_true_eq_false, if_false]
    cases cache with
    | none => rfl
    | some entries =>
      rcases hr : remove_cache_files entries with ⟨rem, bad⟩
      cases bad <;> simp [hr]
  · simp [h]

lemma prepare_hci_outcome_ignores_intermediates (env env' : HciEnv)
    (cache : Option (List CacheEntry))
    (h : env.read_bd_addr_status = env'.read_bd_addr_status) :
    (prepare_hci env cache).outcome = (prepare_hci env' cache).outcome ∧
    (prepare_hci env cache).closeCount = (prepare_hci env' cache).closeCount := by
  unfold prepare_hci
  by_cases hs : env.read_bd_addr_status = SUCCESS
  · simp only [hs, h ▸ hs, ne_eq, not_true_eq_false, if_false]
    cases cache with
    | none => exact ⟨rfl, rfl⟩
    | some entries =>
      rcases hr : remove_cache_files entries with ⟨rem, bad⟩
      cases bad <;> simp [hr]
  · simp [hs, h ▸ hs, h]

lemma mem_interm_warn {p : String × Nat} {c : String} {s : Nat}
    (h : p ∈ interm_warn c s) : p = (c, s) ∧ benign_ok s = false := by
  unfold interm_warn at h
  split at h
  · simp at h
  · simp at h
    exact ⟨h, by simp_all⟩

lemma prep_warnings_shape (env : HciEnv) {p : String × Nat}
    (h : p ∈ prep_warnings env) :
    (p = ("inquiry_cancel", env.inquiry_cancel_status) ∧
      benign_ok env.inquiry_cancel_status = false) ∨
    (p = ("exit_periodic_inquiry_mode", env.exit_periodic_inquiry_mode_status) ∧
      benign_ok env.exit_periodic_inquiry_mode_status = false) ∨
    (p = ("write_scan_enable", env.exit_periodic_inquiry_mode_status) ∧
      benign_ok env.exit_periodic_inquiry_mode_status = false) ∨
    (p = ("le_set_advertising_enable", env.le_set_advertising_enable_status) ∧
      benign_ok env.le_set_advertising_enable_status = false) ∨
    (p = ("le_set_scan_enable", env.le_set_scan_enable_status) ∧
      benign_ok env.le_set_scan_enable_status = false) ∨
    (p = ("set_event_filter", env.set_event_filter_status) ∧
      env.set_event_filter_status ≠ SUCCESS) := by
  simp only [prep_warnings, List.mem_append] at h
  rcases h with ((((h | h) | h) | h) | h) | h
  · exact Or.inl (mem_interm_warn h)
  · exact Or.inr (Or.inl (mem_interm_warn h))
  · exact Or.inr (Or.inr (Or.inl (mem_interm_warn h)))
  · exact Or.inr (Or.inr (Or.inr (Or.inl (mem_interm_warn h))))
  · exact Or.inr (Or.inr (Or.inr (Or.inr (Or.inl (mem_interm_warn h)))))
  · split at h
    · simp at h
    · simp at h
      exact Or.inr (Or.inr (Or.inr (Or.inr (Or.inr ⟨h, by assumption⟩))))

lemma remove_cache_files_all_files (entries : List CacheEntry)
    (h : ∀ e ∈ entries, e.isDir = false) :
    remove_cache_files entries = ([], none) := by
  induction entries with
  | nil => rfl
  | cons e rest ih =>
    have he := h e (List.mem_cons_self e rest)
    simp [remove_cache_files, he,
          ih (fun x hx => h x (List.mem_cons_of_mem _ hx))]

lemma remove_cache_files_hits_dir (entries : List CacheEntry)
    (h : ∃ e ∈ entries, e.isDir = true) :
    ∃ rem nm, remove_cache_files entries = (rem, some nm) := by
  induction entries with
  | nil => simp at h
  | cons e rest ih =>
    by_cases he : e.isDir = true
    · exact ⟨e :: rest, e.name, by simp [remove_cache_files, he]⟩
    · obtain ⟨x, hx, hxd⟩ := h
      rcases List.mem_cons.mp hx with rfl | hx
      · exact absurd hxd he
      · obtain ⟨rem, nm, hrn⟩ := ih ⟨x, hx, hxd⟩
        exact ⟨rem, nm, by simp [remove_cache_files, he, hrn]⟩

/-- C1 (counterexample): with `inquiry_cancel` returning code 0x1f — outside
`{SUCCESS, COMMAND_DISALLOWED}` — normalization does not abort at that point:
all seven commands are still issued and the run completes normally. -/
theorem C1_counterexample :
    benign_ok ({ all_success_env with
      inquiry_cancel_status := 0x1f } : HciEnv).inquiry_cancel_status = false ∧
    (prepare_hci { all_success_env with
      inquiry_cancel_status := 0x1f } none).outcome = PrepOutcome.normal ∧
    (prepare_hci { all_success_env with
      inquiry_cancel_status := 0x1f } none).issued = all_hci_commands := by
  refine ⟨by decide, rfl, rfl⟩

/-- C1 (amended): an intermediate controller command whose examined status lies
outside `{Success, Benign}` only causes a logged warning (for disable-scan the
status examined is the previous command's; for clear-all-event-filters any
non-`Success` status is warned about); all seven commands are always issued,
and the run's outcome and handle-close count do not depend on the six
intermediate statuses at all. -/
theorem C1_fatal_intermediate_warns_and_continues (env : HciEnv)
    (cache : Option (List CacheEntry)) :
    (benign_ok env.inquiry_cancel_status = false →
      ("inquiry_cancel", env.inquiry_cancel_status) ∈ (prepare_hci env cache).warnings) ∧
    (benign_ok env.exit_periodic_inquiry_mode_status = false →
      ("exit_periodic_inquiry_mode", env.exit_periodic_inquiry_mode_status) ∈
        (prepare_hci env cache).warnings) ∧
    (benign_ok env.le_set_advertising_enable_status = false →
      ("le_set_advertising_enable", env.le_set_advertising_enable_status) ∈
        (prepare_hci env cache).warnings) ∧
    (benign_ok env.le_set_scan_enable_status = false →
      ("le_set_scan_enable", env.le_set_scan_enable_status) ∈
        (prepare_hci env cache).warnings) ∧
    (env.set_event_filter_status ≠ SUCCESS →
      ("set_event_filter", env.set_event_filter_status) ∈
        (prepare_hci env cache).warnings) ∧
    (prepare_hci env cache).issued = all_hci_commands ∧
    (prepare_hci env cache).outcome =
      (prepare_hci (with_success_intermediates env) cache).outcome ∧
    (prepare_hci env cache).closeCount =
      (prepare_hci (with_success_intermediates env) cache).closeCount := by
  have hout := prepare_hci_outcome_ignores_intermediates env
    (with_success_intermediates env) cache rfl
  refine ⟨?_, ?_, ?_, ?_, ?_, prepare_hci_issued_eq env cache, hout.1, hout.2⟩ <;>
    intro h <;>
    simp [prepare_hci_warnings_eq, prep_warnings, interm_warn, h]

/-- C1 (witness): a fatal `inquiry_cancel` status is logged as a warning. -/
theorem C1_witness :
    ("inquiry_cancel", 0x1f) ∈
      (prepare_hci { all_success_env with inquiry_cancel_status := 0x1f } none).warnings :=
  (C1_fatal_intermediate_warns_and_continues
    { all_success_env with inquiry_cancel_status := 0x1f } none).1 (by decide)

/-- C2 (counterexample): when `read_bd_addr` reports code 0x1f, `prepare_hci`
raises before line 93, so `hci.close()` never runs: the handle is left open on
that exit path, not closed exactly once. -/
theorem C2_counterexample :
    (prepare_hci { all_success_env with
      read_bd_addr_status := 0x1f } none).outcome = PrepOutcome.raisedRuntimeError 0x1f ∧
    (prepare_hci { all_success_env with
      read_bd_addr_status := 0x1f } none).closeCount = 0 := by
  exact ⟨rfl, rfl⟩

/-- C2 (amended): `hci.close()` runs exactly once on normal completion and
zero times on every raising path (failed final address read, or an OS error
during cache deletion), because the close call is not in a `finally` block. -/
theorem C2_close_only_on_normal_exit (env : HciEnv)
    (cache : Option (List CacheEntry)) :
    (prepare_hci env cache).closeCount =
      (if (prepare_hci env cache).outcome = PrepOutcome.normal then 1 else 0) := by
  unfold prepare_hci
  by_cases h : env.read_bd_addr_status = SUCCESS
  · simp only [h, ne_eq, not_true_eq_false, if_false]
    cases cache with
    | none => rfl
    | some entries =>
      rcases hr : remove_cache_files entries with ⟨rem, bad⟩
      cases bad <;> simp [hr]
  · simp [h]

/-- C3: the final `read_bd_addr` check treats every non-`SUCCESS` status —
`COMMAND_DISALLOWED` included — as fatal: the run raises `RuntimeError` with
that status and the cache is left untouched; on `SUCCESS` the resolved
address string (uppercased) keys the cache path. -/
theorem C3_read_bd_addr_any_failure_fatal (env : HciEnv)
    (cache : Option (List CacheEntry)) :
    (env.read_bd_addr_status ≠ SUCCESS →
      (prepare_hci env cache).outcome =
        PrepOutcome.raisedRuntimeError env.read_bd_addr_status ∧
      (prepare_hci env cache).cacheAfter = cache ∧
      (prepare_hci env cache).localAddr = none) ∧
    (env.read_bd_addr_status = SUCCESS →
      (prepare_hci env cache).localAddr =
        some ((bd_addr_bytes2str env.read_bd_addr_addr).toUpper)) := by
  constructor
  · intro h
    simp [prepare_hci, h]
  · intro h
    unfold prepare_hci
    simp only [h, ne_eq, not_true_eq_false, if_false]
    cases cache with
    | none => rfl
    | some entries =>
      rcases hr : remove_cache_files entries with ⟨rem, bad⟩
      cases bad <;> simp [hr]

/-- C3 (witness): the `Benign` code `COMMAND_DISALLOWED` on the final address
read is fatal and the cache entry survives. -/
theorem C3_witness :
    (prepare_hci { all_success_env with read_bd_addr_status := COMMAND_DISALLOWED }
      (some [⟨"peer", false⟩])).outcome =
        PrepOutcome.raisedRuntimeError COMMAND_DISALLOWED ∧
    (prepare_hci { all_success_env with read_bd_addr_status := COMMAND_DISALLOWED }
      (some [⟨"peer", false⟩])).cacheAfter = some [⟨"peer", false⟩] :=
  ⟨((C3_read_bd_addr_any_failure_fatal
      { all_success_env with read_bd_addr_status := COMMAND_DISALLOWED }
      (some [⟨"peer", false⟩])).1 (by decide)).1,
   ((C3_read_bd_addr_any_failure_fatal
      { all_success_env with read_bd_addr_status := COMMAND_DISALLOWED }
      (some [⟨"peer", false⟩])).1 (by decide)).2.1⟩

/-- C4 (counterexample): with `inquiry_cancel` returning the Benign code and
`exit_periodic_inquiry_mode` returning 0x1f while `write_scan_enable` itself
returns `SUCCESS`, the run logs no warning for the Benign outcome and logs a
`write_scan_enable` warning carrying the stale 0x1f status — so the status
classified at the disable-scan step is not that command's own result. -/
theorem C4_counterexample :
    ({ all_success_env with
        inquiry_cancel_status := COMMAND_DISALLOWED,
        exit_periodic_inquiry_mode_status := 0x1f } : HciEnv).write_scan_enable_status
      = SUCCESS ∧
    (prepare_hci { all_success_env with
        inquiry_cancel_status := COMMAND_DISALLOWED,
        exit_periodic_inquiry_mode_status := 0x1f } none).warnings =
      [("exit_periodic_inquiry_mode", 0x1f), ("write_scan_enable", 0x1f)] := by
  exact ⟨rfl, rfl⟩

/-- C4 (amended): commands 1, 2, 4, 5 are classified on their own status and 6
on its own status with a stricter non-`Success` test, but the disable-scan
check re-examines `exit_periodic_inquiry_mode`'s status: its warning appears
exactly when that previous status is outside `{Success, Benign}`, the
warnings never depend on `write_scan_enable`'s own status, a Benign
`inquiry_cancel` outcome is not logged, while a Benign `set_event_filter`
outcome is; in every case all seven commands are issued. -/
theorem C4_stale_status_at_disable_scan (env : HciEnv)
    (cache : Option (List CacheEntry)) :
    (benign_ok env.exit_periodic_inquiry_mode_status = false →
      ("write_scan_enable", env.exit_periodic_inquiry_mode_status) ∈
        (prepare_hci env cache).warnings) ∧
    (benign_ok env.exit_periodic_inquiry_mode_status = true →
      ∀ p ∈ (prepare_hci env cache).warnings, p.1 ≠ "write_scan_enable") ∧
    (∀ s, (prepare_hci { env with write_scan_enable_status := s } cache).warnings =
      (prepare_hci env cache).warnings) ∧
    (env.inquiry_cancel_status = COMMAND_DISALLOWED →
      ∀ p ∈ (prepare_hci env cache).warnings, p.1 ≠ "inquiry_cancel") ∧
    (env.set_event_filter_status = COMMAND_DISALLOWED →
      ("set_event_filter", COMMAND_DISALLOWED) ∈ (prepare_hci env cache).warnings) ∧
    (prepare_hci env cache).issued = all_hci_commands := by
  refine ⟨?_, ?_, ?_, ?_, ?_, prepare_hci_issued_eq env cache⟩
  · intro h
    simp [prepare_hci_warnings_eq, prep_warnings, interm_warn, h]
  · intro h p hp
    rw [prepare_hci_warnings_eq] at hp
    rcases prep_warnings_shape env hp with
      ⟨hp1, _⟩ | ⟨hp1, _⟩ | ⟨hp1, hb⟩ | ⟨hp1, _⟩ | ⟨hp1, _⟩ | ⟨hp1, _⟩ <;>
      subst hp1 <;> simp_all
  · intro s
    rw [prepare_hci_warnings_eq, prepare_hci_warnings_eq]
    rfl
  · intro h p hp
    rw [prepare_hci_warnings_eq] at hp
    rcases prep_warnings_shape env hp with
      ⟨hp1, hb⟩ | ⟨hp1, _⟩ | ⟨hp1, _⟩ | ⟨hp1, _⟩ | ⟨hp1, _⟩ | ⟨hp1, _⟩ <;>
      subst hp1 <;> simp_all [benign_ok, COMMAND_DISALLOWED]
  · intro h
    simp [prepare_hci_warnings_eq, prep_warnings, interm_warn, h,
          COMMAND_DISALLOWED, SUCCESS]

/-- C4 (witness): with `exit_periodic_inquiry_mode` returning 0x1f, a
`write_scan_enable` warning carrying that stale status is logged. -/
theorem C4_witness :
    ("write_scan_enable", 0x1f) ∈
      (prepare_hci { all_success_env with
        exit_periodic_inquiry_mode_status := 0x1f } none).warnings :=
  (C4_stale_status_at_disable_scan
    { all_success_env with exit_periodic_inquiry_mode_status := 0x1f } none).1
    (by decide)

/-- C5: `clean laddr raddr` issues, in strict order, service stop, removal of
the peer subtree, removal of the cache peer subtree (remote address
uppercased, removal succeeding even when a path is absent), and service
start; afterwards the service is running and exactly the paths under the two
subtrees are gone. -/
theorem C5_cleanup_sequence (laddr raddr : String) (st : HostState) :
    clean laddr raddr =
      [ HostCmd.systemctl_stop "bluetooth.service",
        HostCmd.rm_rf ("/var/lib/bluetooth/" ++ laddr ++ "/" ++ raddr.toUpper),
        HostCmd.rm_rf ("/var/lib/bluetooth/" ++ laddr ++ "/cache/" ++ raddr.toUpper),
        HostCmd.systemctl_start "bluetooth.service" ] ∧
    (run_host_cmds st (clean laddr raddr)).svcRunning = true ∧
    (run_host_cmds st (clean laddr raddr)).fsPaths =
      st.fsPaths.filter (fun p =>
        !(under_path ("/var/lib/bluetooth/" ++ laddr ++ "/" ++ raddr.toUpper) p) &&
        !(under_path ("/var/lib/bluetooth/" ++ laddr ++ "/cache/" ++ raddr.toUpper) p)) := by
  refine ⟨rfl, rfl, ?_⟩
  have h : (run_host_cmds st (clean laddr raddr)).fsPaths =
      (st.fsPaths.filter (fun p =>
        !(under_path ("/var/lib/bluetooth/" ++ laddr ++ "/" ++ raddr.toUpper) p))).filter
        (fun p =>
          !(under_path ("/var/lib/bluetooth/" ++ laddr ++ "/cache/" ++ raddr.toUpper) p)) :=
    rfl
  rw [h, List.filter_filter]
  exact List.filter_congr (fun a _ => Bool.and_comm _ _)

/-- C6: when all six intermediate statuses are in `{Success, Benign}` and the
final address read succeeds, normalization completes normally, closes the
handle once, and leaves the cache directory (when it exists and holds only
regular files, the case the code's `os.remove` loop handles) empty; a missing
cache directory is not an error. -/
theorem C6_success_run_empties_cache (env : HciEnv)
    (cache : Option (List CacheEntry))
    (h1 : benign_ok env.inquiry_cancel_status = true)
    (h2 : benign_ok env.exit_periodic_inquiry_mode_status = true)
    (h3 : benign_ok env.write_scan_enable_status = true)
    (h4 : benign_ok env.le_set_advertising_enable_status = true)
    (h5 : benign_ok env.le_set_scan_enable_status = true)
    (h6 : benign_ok env.set_event_filter_status = true)
    (h7 : env.read_bd_addr_status = SUCCESS)
    (hfiles : ∀ e ∈ cache.getD [], e.isDir = false) :
    (prepare_hci env cache).outcome = PrepOutcome.normal ∧
    ((prepare_hci env cache).cacheAfter = none ∨
      (prepare_hci env cache).cacheAfter = some []) ∧
    (prepare_hci env cache).closeCount = 1 := by
  unfold prepare_hci
  simp only [h7, ne_eq, not_true_eq_false, if_false]
  cases cache with
  | none => exact ⟨rfl, Or.inl rfl, rfl⟩
  | some entries =>
    have hrm := remove_cache_files_all_files entries (fun e he => hfiles e he)
    simp [hrm]

/-- C6 (witness): an all-success run over a cache of two regular files
completes and empties the cache. -/
theorem C6_witness :
    (prepare_hci all_success_env
      (some [⟨"info", false⟩, ⟨"attributes", false⟩])).outcome = PrepOutcome.normal ∧
    ((prepare_hci all_success_env
      (some [⟨"info", false⟩, ⟨"attributes", false⟩])).cacheAfter = none ∨
      (prepare_hci all_success_env
        (some [⟨"info", false⟩, ⟨"attributes", false⟩])).cacheAfter = some []) ∧
    (prepare_hci all_success_env
      (some [⟨"info", false⟩, ⟨"attributes", false⟩])).closeCount = 1 :=
  C6_success_run_empties_cache all_success_env
    (some [⟨"info", false⟩, ⟨"attributes", false⟩])
    (by decide) (by decide) (by decide) (by decide) (by decide) (by decide)
    (by decide) (by decide)

/-- C7 (counterexample): interrupting an `--adv` sniff — a run in which no
controller interface is ever opened — still reaches line 212, because
`args[-i]` holds the sentinel string, and issues a reset command on it; that
command fails, the `CalledProcessError` escapes the handler, no blank line
or `Canceled` message appears, and the process exits abnormally — falsifying
both the no-reset-before-any-interface-is-opened part of the claim and its
no-error-exit part. -/
theorem C7_counterexample :
    opens_interface adv_sniff_args = false ∧
    (handle_keyboard_interrupt (ArgsState.bound (some adv_sniff_args))
      (fun i => i == "The default HCI device")).resetAttempts =
        ["The default HCI device"] ∧
    (handle_keyboard_interrupt (ArgsState.bound (some adv_sniff_args))
      (fun i => i == "The default HCI device")).infoLogs = [] ∧
    (handle_keyboard_interrupt (ArgsState.bound (some adv_sniff_args))
      (fun i => i == "The default HCI device")).errorExit = true := by
  exact ⟨rfl, rfl, rfl, rfl⟩

/-- C7 (amended): the interrupt clause's guard is `args` bound and `args[-i]`
not `None`, which is independent of whether an interface was ever opened.
When the guard holds, exactly one `hciconfig <args[-i]> reset` is issued: if
the reset subprocess succeeds, a blank line and the informational `Canceled`
message follow with no error exit; if it fails, the `CalledProcessError`
escapes the handler, no `Canceled` appears and the process exits abnormally.
When `args` is `None` or carries no interface, no reset is issued and the
clause ends gracefully with `Canceled`; when the interrupt arrives before
`args` is bound, the guard itself raises: no reset, no `Canceled`, abnormal
exit. -/
theorem C7_interrupt_reset_guard (a : Args) (reset_fails : String → Bool) :
    (∀ i, a.iface = some i →
      (handle_keyboard_interrupt (.bound (some a)) reset_fails).resetAttempts = [i] ∧
      (reset_fails i = false →
        (handle_keyboard_interrupt (.bound (some a)) reset_fails).printedBlank = true ∧
        (handle_keyboard_interrupt (.bound (some a)) reset_fails).infoLogs =
          ["Canceled\n"] ∧
        (handle_keyboard_interrupt (.bound (some a)) reset_fails).errorExit = false) ∧
      (reset_fails i = true →
        (handle_keyboard_interrupt (.bound (some a)) reset_fails).infoLogs = [] ∧
        (handle_keyboard_interrupt (.bound (some a)) reset_fails).errorExit = true ∧
        (handle_keyboard_interrupt (.bound (some a)) reset_fails).uncaughtException
          = true)) ∧
    (a.iface = none →
      (handle_keyboard_interrupt (.bound (some a)) reset_fails).resetAttempts = [] ∧
      (handle_keyboard_interrupt (.bound (some a)) reset_fails).infoLogs =
        ["Canceled\n"] ∧
      (handle_keyboard_interrupt (.bound (some a)) reset_fails).errorExit = false) ∧
    (handle_keyboard_interrupt (.bound none) reset_fails).resetAttempts = [] ∧
    (handle_keyboard_interrupt (.bound none) reset_fails).infoLogs = ["Canceled\n"] ∧
    (handle_keyboard_interrupt .unbound reset_fails).resetAttempts = [] ∧
    (handle_keyboard_interrupt .unbound reset_fails).infoLogs = [] ∧
    (handle_keyboard_interrupt .unbound reset_fails).errorExit = true := by
  refine ⟨?_, ?_, rfl, rfl, rfl, rfl, rfl⟩
  · intro i hi
    refine ⟨?_, ?_, ?_⟩
    · by_cases h : reset_fails i = true <;>
        simp [handle_keyboard_interrupt, hi, h]
    · intro h
      simp [handle_keyboard_interrupt, hi, h]
    · intro h
      simp [handle_keyboard_interrupt, hi, h]
  · intro hi
    simp [handle_keyboard_interrupt, hi]

/-- C7 (witness): with `args` bound, interface `hci0` selected and the reset
command succeeding, exactly `hci0` is reset and the clause ends without an
error exit; with `args` still unbound, no reset is issued. -/
theorem C7_witness :
    (handle_keyboard_interrupt (ArgsState.bound (some hci0_args))
      (fun _ => false)).resetAttempts = ["hci0"] ∧
    (handle_keyboard_interrupt (ArgsState.bound (some hci0_args))
      (fun _ => false)).errorExit = false ∧
    (handle_keyboard_interrupt ArgsState.unbound (fun _ => false)).resetAttempts
      = [] :=
  ⟨((C7_interrupt_reset_guard hci0_args (fun _ => false)).1 "hci0" rfl).1,
   (((C7_interrupt_reset_guard hci0_args (fun _ => false)).1 "hci0" rfl).2.1
      rfl).2.2,
   (C7_interrupt_reset_guard hci0_args (fun _ => false)).2.2.2.2.1⟩

/-- C8: a `BTLEException` is logged, the adapter/privilege hint is appended
exactly when the message mentions `le on`, and the process falls through to a
normal exit (code 0) with no traceback, unlike the `RuntimeError` clause
which exits 1. -/
theorem C8_btle_engine_failure (args : Option Args) (msg : String) :
    (handle_exception args (MainExc.btle_exception msg)).exitCode = 0 ∧
    (handle_exception args (MainExc.btle_exception msg)).tracePrinted = false ∧
    (handle_exception args (MainExc.btle_exception msg)).resetCmds = [] ∧
    (le_on_in msg = true →
      (handle_exception args (MainExc.btle_exception msg)).errorLogs =
        [msg ++ "\nNo BLE adapter or missing sudo?"]) ∧
    (le_on_in msg = false →
      (handle_exception args (MainExc.btle_exception msg)).errorLogs = [msg]) ∧
    (handle_exception args (MainExc.runtime_error msg)).exitCode = 1 := by
  refine ⟨rfl, rfl, rfl, ?_, ?_, rfl⟩ <;> intro h <;> simp [handle_exception, h]

/-- C8 (witness): a message mentioning `le on` gets the hint appended; one
that does not is logged verbatim; both exit with code 0. -/
theorem C8_witness :
    (handle_exception none
      (MainExc.btle_exception "Failed to execute mgmt cmd le on")).errorLogs =
      ["Failed to execute mgmt cmd le on" ++ "\nNo BLE adapter or missing sudo?"] ∧
    (handle_exception none (MainExc.btle_exception "boom")).errorLogs = ["boom"] ∧
    (handle_exception none
      (MainExc.btle_exception "Failed to execute mgmt cmd le on")).exitCode = 0 :=
  ⟨(C8_btle_engine_failure none "Failed to execute mgmt cmd le on").2.2.2.1 (by decide),
   (C8_btle_engine_failure none "boom").2.2.2.2.1 (by decide),
   (C8_btle_engine_failure none "Failed to execute mgmt cmd le on").1⟩

/-- C9: exactly one engine operation runs per invocation; a produced
`ScanResult` is rendered exactly once (one header naming its scan type, one
`print`) and stored exactly once, and a result is only ever produced by the
LE device-scan or GATT branches; when no result is produced nothing is
rendered or stored. -/
theorem C9_result_lifecycle (args : Args) (ler gr : Option ScanResult) :
    (dispatch args ler gr).ops.length = 1 ∧
    (∀ r, (dispatch args ler gr).scan_result = some r →
      (dispatch args ler gr).rendered = [r] ∧
      (dispatch args ler gr).stored = [r] ∧
      (dispatch args ler gr).headers =
        ["----------------" ++ r.type_tag ++ " Scan Result----------------"] ∧
      ((dispatch args ler gr).ops = [EngineOp.le_scan_devs] ∨
        (dispatch args ler gr).ops = [EngineOp.gatt_scan])) ∧
    ((dispatch args ler gr).scan_result = none →
      (dispatch args ler gr).rendered = [] ∧
      (dispatch args ler gr).stored = [] ∧
      (dispatch args ler gr).headers = []) := by
  rcases hb : dispatch_branch args ler gr with ⟨op, res⟩
  have hop : res ≠ none → op = EngineOp.le_scan_devs ∨ op = EngineOp.gatt_scan := by
    intro hres
    unfold dispatch_branch at hb
    split_ifs at hb <;> simp_all
  cases res with
  | none =>
    refine ⟨?_, ?_, ?_⟩ <;> simp [dispatch, hb, result_lifecycle]
  | some r =>
    have := hop (by simp)
    refine ⟨?_, ?_, ?_⟩ <;> simp_all [dispatch, hb, result_lifecycle]

/-- C9 (witness): an LE device scan that produces a result has it rendered
and stored exactly once, with the header naming its type. -/
theorem C9_witness :
    (dispatch { iface := some "hci0", mode := some "le", adv := false,
                lmp_feature := false, ll_feature := false, smp_feature := false,
                clean_flag := false } (some ⟨"LE Devices"⟩) none).rendered =
      [⟨"LE Devices"⟩] ∧
    (dispatch { iface := some "hci0", mode := some "le", adv := false,
                lmp_feature := false, ll_feature := false, smp_feature := false,
                clean_flag := false } (some ⟨"LE Devices"⟩) none).stored =
      [⟨"LE Devices"⟩] :=
  ⟨((C9_result_lifecycle
      { iface := some "hci0", mode := some "le", adv := false,
        lmp_feature := false, ll_feature := false, smp_feature := false,
        clean_flag := false } (some ⟨"LE Devices"⟩) none).2.1 ⟨"LE Devices"⟩ rfl).1,
   ((C9_result_lifecycle
      { iface := some "hci0", mode := some "le", adv := false,
        lmp_feature := false, ll_feature := false, smp_feature := false,
        clean_flag := false } (some ⟨"LE Devices"⟩) none).2.1 ⟨"LE Devices"⟩ rfl).2.1⟩

/-- C10: whenever the cache directory holds a subdirectory entry, the
`os.remove` loop raises an OS error that none of `main`'s `except` clauses
catches, aborting normalization with the handle never closed. -/
theorem C10_cache_subdir_uncaught_abort (env : HciEnv) (entries : List CacheEntry)
    (h7 : env.read_bd_addr_status = SUCCESS)
    (hdir : ∃ e ∈ entries, e.isDir = true) :
    (∃ nm, (prepare_hci env (some entries)).outcome = PrepOutcome.raisedOsError nm) ∧
    (prepare_hci env (some entries)).closeCount = 0 ∧
    caught_by_except_clauses (prepare_hci env (some entries)).outcome = false := by
  obtain ⟨rem, nm, hrm⟩ := remove_cache_files_hits_dir entries hdir
  unfold prepare_hci
  simp only [h7, ne_eq, not_true_eq_false, if_false]
  simp [hrm, caught_by_except_clauses]

/-- C10 (witness): a cache holding a file and a subdirectory makes an
all-success run abort uncaught with the handle still open. -/
theorem C10_witness :
    (prepare_hci all_success_env
      (some [⟨"attributes", false⟩, ⟨"cache-sub", true⟩])).closeCount = 0 ∧
    caught_by_except_clauses
      (prepare_hci all_success_env
        (some [⟨"attributes", false⟩, ⟨"cache-sub", true⟩])).outcome = false :=
  ⟨(C10_cache_subdir_uncaught_abort all_success_env
      [⟨"attributes", false⟩, ⟨"cache-sub", true⟩] (by decide)
      ⟨⟨"cache-sub", true⟩, by decide, rfl⟩).2.1,
   (C10_cache_subdir_uncaught_abort all_success_env
      [⟨"attributes", false⟩, ⟨"cache-sub", true⟩] (by decide)
      ⟨⟨"cache-sub", true⟩, by decide, rfl⟩).2.2⟩

end Bluescan
